import Mathlib

/-!
Shallow embedding of the scheduled-publishing core of the LinkedIn
auto-poster repository (`backgrounds.py` and `nodes/save_to_sheet.py`),
together with theorems settling the frozen claims about it.

The embedding models:
  * `LinkedInScheduler.parse_datetime` (the Datetime Normalizer), including
    the exact CPython `strptime` matching semantics for the six format
    strings in the source and the `datetime` constructor's range checks;
  * `GoogleSheetsManager.get_posts` / `update_posted` (the store adapter);
  * `LinkedInPoster.create_post` (the Publish Client), with the remote
    API abstracted as a deterministic oracle;
  * `LinkedInScheduler.check_and_post` (one scheduler tick), with the
    publish and mark calls abstracted as fallible oracle calls;
  * the `post_number` assignment of `save_post_to_sheet` (store append).
-/

namespace AutoPoster

/-! ## Python string helpers -/

/-- Whitespace characters removed by Python's `str.strip()` and matched by
the regex class `\s` (ASCII range; the inputs of interest are ASCII). -/
def isPySpace (c : Char) : Bool :=
  c = ' ' || c = '\t' || c = '\n' || c = '\r' || c = Char.ofNat 11 || c = Char.ofNat 12

def pyStripList (cs : List Char) : List Char :=
  ((cs.dropWhile isPySpace).reverse.dropWhile isPySpace).reverse

/-- Python `s.strip()`. -/
def pyStrip (s : String) : String := ⟨pyStripList s.data⟩

/-- Python `s.split(sep)` for a one-character separator, on character
lists (empty pieces are kept, as Python does). -/
def splitChar (sep : Char) : List Char → List (List Char)
  | [] => [[]]
  | c :: rest =>
      let r := splitChar sep rest
      if c = sep then [] :: r
      else (c :: r.headD []) :: r.tail

def digitVal (c : Char) : Nat := c.toNat - 48

/-! ## CPython `strptime` for the six formats of `parse_datetime`

CPython's `_strptime` compiles each directive to a regex alternation,
matched against the whole string (a partial match raises `ValueError`).
The directives used by the source formats compile to:
  `%Y` → `\d\d\d\d`        (exactly four digits)
  `%m` → `1[0-2]|0[1-9]|[1-9]`
  `%d` → `3[01]|[12]\d|0[1-9]|[1-9]`
  `%H` → `2[0-3]|[0-1]\d|\d`
  `%M` → `[0-5]\d|\d`
  `%S` → `6[0-1]|[0-5]\d|\d`
and a literal space in the format matches `\s+`.  Alternatives are tried
left to right with backtracking; we model this with an explicit ordered
alternative list and a success continuation. -/

/-- One regex alternative for a numeric field: consume a prefix, return
its value and the rest of the input. -/
def FieldAlt : Type := List Char → Option (Nat × List Char)

/-- Alternative matching two digit characters `c1 c2` with `p1 c1 && p2 c2`. -/
def altPair (p1 p2 : Char → Bool) : FieldAlt := fun cs =>
  match cs with
  | c1 :: c2 :: rest =>
      if p1 c1 && p2 c2 then some (10 * digitVal c1 + digitVal c2, rest) else none
  | _ => none

/-- Alternative matching a single digit character satisfying `p`. -/
def altOne (p : Char → Bool) : FieldAlt := fun cs =>
  match cs with
  | c :: rest => if p c then some (digitVal c, rest) else none
  | [] => none

def between (lo hi : Char) (c : Char) : Bool := lo ≤ c && c ≤ hi

/-- `%m` : `1[0-2]|0[1-9]|[1-9]`. -/
def monthAlts : List FieldAlt :=
  [altPair (· = '1') (between '0' '2'),
   altPair (· = '0') (between '1' '9'),
   altOne (between '1' '9')]

/-- `%d` : `3[01]|[12]\d|0[1-9]|[1-9]`. -/
def dayAlts : List FieldAlt :=
  [altPair (· = '3') (between '0' '1'),
   altPair (between '1' '2') Char.isDigit,
   altPair (· = '0') (between '1' '9'),
   altOne (between '1' '9')]

/-- `%H` : `2[0-3]|[0-1]\d|\d`. -/
def hourAlts : List FieldAlt :=
  [altPair (· = '2') (between '0' '3'),
   altPair (between '0' '1') Char.isDigit,
   altOne Char.isDigit]

/-- `%M` : `[0-5]\d|\d`. -/
def minuteAlts : List FieldAlt :=
  [altPair (between '0' '5') Char.isDigit,
   altOne Char.isDigit]

/-- `%S` : `6[0-1]|[0-5]\d|\d` (leap seconds pass the regex; the
`datetime` constructor then rejects them). -/
def secondAlts : List FieldAlt :=
  [altPair (· = '6') (between '0' '1'),
   altPair (between '0' '5') Char.isDigit,
   altOne Char.isDigit]

/-- Ordered alternation with backtracking: try each alternative in order,
and on a match run the continuation `k`; if `k` fails, fall through to the
next alternative, exactly as the regex engine does. -/
def tryAlts {α : Type} (alts : List FieldAlt) (cs : List Char)
    (k : Nat → List Char → Option α) : Option α :=
  match alts with
  | [] => none
  | a :: rest =>
      match a cs with
      | some (v, cs') =>
          match k v cs' with
          | some r => some r
          | none => tryAlts rest cs k
      | none => tryAlts rest cs k

/-- `%Y` : exactly four digits. -/
def tryYear {α : Type} (cs : List Char) (k : Nat → List Char → Option α) : Option α :=
  match cs with
  | a :: b :: c :: d :: rest =>
      if a.isDigit && b.isDigit && c.isDigit && d.isDigit then
        k (1000 * digitVal a + 100 * digitVal b + 10 * digitVal c + digitVal d) rest
      else none
  | _ => none

/-- A literal character in the format string. -/
def litChar {α : Type} (d : Char) (cs : List Char) (k : List Char → Option α) : Option α :=
  match cs with
  | c :: rest => if c = d then k rest else none
  | [] => none

/-- A space in the format string: `\s+`.  The token after it is always a
digit in the source formats, so greedy matching needs no backtracking. -/
def wsPlus {α : Type} (cs : List Char) (k : List Char → Option α) : Option α :=
  match cs with
  | c :: rest => if isPySpace c then k (rest.dropWhile isPySpace) else none
  | [] => none

/-- Result of a successful `strptime` before constructor validation:
a naive (timezone-less) datetime. -/
structure NaiveDT where
  year : Nat
  month : Nat
  day : Nat
  hour : Nat
  minute : Nat
  second : Nat
deriving DecidableEq, Repr

/-- The date-component order distinguishing the three format families. -/
inductive DateOrder where
  | ymd   -- `%Y-%m-%d`
  | mdy   -- `%m/%d/%Y`
  | dmy   -- `%d/%m/%Y`
deriving DecidableEq, Repr

structure TimeFormat where
  order : DateOrder
  withSeconds : Bool
deriving DecidableEq, Repr

/-- The `formats` list of `LinkedInScheduler.parse_datetime`, in source order:
`"%Y-%m-%d %H:%M:%S"`, `"%Y-%m-%d %H:%M"`, `"%m/%d/%Y %H:%M:%S"`,
`"%m/%d/%Y %H:%M"`, `"%d/%m/%Y %H:%M:%S"`, `"%d/%m/%Y %H:%M"`. -/
def formats : List TimeFormat :=
  [⟨.ymd, true⟩, ⟨.ymd, false⟩, ⟨.mdy, true⟩, ⟨.mdy, false⟩, ⟨.dmy, true⟩, ⟨.dmy, false⟩]

def parseDate {α : Type} (ord : DateOrder) (cs : List Char)
    (k : Nat → Nat → Nat → List Char → Option α) : Option α :=
  match ord with
  | .ymd =>
      tryYear cs fun y cs1 =>
      litChar '-' cs1 fun cs2 =>
      tryAlts monthAlts cs2 fun mo cs3 =>
      litChar '-' cs3 fun cs4 =>
      tryAlts dayAlts cs4 fun d cs5 => k y mo d cs5
  | .mdy =>
      tryAlts monthAlts cs fun mo cs1 =>
      litChar '/' cs1 fun cs2 =>
      tryAlts dayAlts cs2 fun d cs3 =>
      litChar '/' cs3 fun cs4 =>
      tryYear cs4 fun y cs5 => k y mo d cs5
  | .dmy =>
      tryAlts dayAlts cs fun d cs1 =>
      litChar '/' cs1 fun cs2 =>
      tryAlts monthAlts cs2 fun mo cs3 =>
      litChar '/' cs3 fun cs4 =>
      tryYear cs4 fun y cs5 => k y mo d cs5

def parseTime {α : Type} (withSeconds : Bool) (cs : List Char)
    (k : Nat → Nat → Nat → List Char → Option α) : Option α :=
  tryAlts hourAlts cs fun h cs1 =>
  litChar ':' cs1 fun cs2 =>
  tryAlts minuteAlts cs2 fun mi cs3 =>
  if withSeconds then
    litChar ':' cs3 fun cs4 =>
    tryAlts secondAlts cs4 fun s cs5 => k h mi s cs5
  else k h mi 0 cs3

def isLeapYear (y : Nat) : Bool := y % 4 = 0 && (y % 100 ≠ 0 || y % 400 = 0)

def daysInMonth (y m : Nat) : Nat :=
  if m = 2 then (if isLeapYear y then 29 else 28)
  else if m = 4 || m = 6 || m = 9 || m = 11 then 30 else 31

/-- The range checks of the `datetime` constructor, which `strptime` calls
after a successful regex match (`MINYEAR = 1`, `MAXYEAR = 9999`; the regex
already bounds month 1–12, day 1–31, hour 0–23, minute 0–59, but admits
seconds 60–61 and year 0000, which the constructor rejects). -/
def validDT (dt : NaiveDT) : Bool :=
  1 ≤ dt.year && dt.year ≤ 9999 &&
  1 ≤ dt.month && dt.month ≤ 12 &&
  1 ≤ dt.day && dt.day ≤ daysInMonth dt.year dt.month &&
  dt.hour ≤ 23 && dt.minute ≤ 59 && dt.second ≤ 59

/-- `datetime.strptime(s, fmt)` for the six source formats: whole-string
regex match (first full match wins, as produced by ordered backtracking),
then constructor validation; a missing `%S` defaults the second to 0. -/
def strptime (fmt : TimeFormat) (cs : List Char) : Option NaiveDT :=
  let matched : Option NaiveDT :=
    parseDate fmt.order cs fun y mo d cs1 =>
    wsPlus cs1 fun cs2 =>
    parseTime fmt.withSeconds cs2 fun h mi s cs3 =>
    if cs3 = [] then some ⟨y, mo, d, h, mi, s⟩ else none
  match matched with
  | some dt => if validDT dt then some dt else none
  | none => none

/-! ## Aware datetimes and `parse_datetime` -/

/-- An (optionally) timezone-aware datetime: `tzOffsetMinutes = none`
models a naive datetime, `some o` a fixed `timezone(timedelta)` offset of
`o` minutes from UTC. -/
structure PyDateTime where
  dt : NaiveDT
  tzOffsetMinutes : Option Int
deriving DecidableEq, Repr

/-- `IST = timezone(timedelta(hours=5, minutes=30))`, as an offset in minutes. -/
def IST : Int := 330

def attachIST (dt : NaiveDT) : PyDateTime := { dt := dt, tzOffsetMinutes := some IST }

/-- First `some` of `f` over a list, in order (the `for fmt in formats` loop). -/
def firstSome {α β : Type} (f : α → Option β) : List α → Option β
  | [] => none
  | a :: rest =>
      match f a with
      | some b => some b
      | none => firstSome f rest

/-- `LinkedInScheduler.parse_datetime`: `None` on empty/blank input, else
the first format that parses wins; the parsed value is naive for every
source format (none contains `%z`), so the IST default zone is attached. -/
def parse_datetime (dt_str : String) : Option PyDateTime :=
  if pyStrip dt_str = "" then none
  else
    match firstSome (fun fmt => strptime fmt (pyStrip dt_str).data) formats with
    | some dt => some (attachIST dt)
    | none => none

/-! ## Instants: aware-datetime comparison via epoch seconds -/

/-- Days in all years before year `y` of the proleptic Gregorian calendar
(year 1 is the first). -/
def daysBeforeYear (y : Nat) : Nat :=
  (y - 1) * 365 + (y - 1) / 4 - (y - 1) / 100 + (y - 1) / 400

def daysBeforeMonth (y m : Nat) : Nat :=
  (List.range (m - 1)).foldl (fun acc i => acc + daysInMonth y (i + 1)) 0

/-- `date.toordinal()`: 0001-01-01 is day 1. -/
def toOrdinal (dt : NaiveDT) : Nat :=
  daysBeforeYear dt.year + daysBeforeMonth dt.year dt.month + dt.day

/-- The instant of an aware datetime, as seconds since 0001-01-01 00:00 UTC.
Python compares aware datetimes by exactly this quantity. -/
def toEpochSec (p : PyDateTime) : Int :=
  ((toOrdinal p.dt - 1) * 86400 + p.dt.hour * 3600 + p.dt.minute * 60 + p.dt.second : Nat)
    - 60 * p.tzOffsetMinutes.getD 0

/-! ## Sheet store (`GoogleSheetsManager`) -/

/-- The `values` matrix returned by the Sheets API for range `A:E`:
one list of cell strings per row, the first row being the header. -/
abbrev Sheet := List (List String)

/-- The value of cell `(r, c)` (1-based row and column, row 1 = header);
absent cells read as the empty string, as `get_posts` treats them. -/
def cellAt (vs : Sheet) (r c : Nat) : String :=
  (vs.getD (r - 1) []).getD (c - 1) ""

/-- One scanned record: the dict built by `get_posts`, with its captured
native row number (`post['row']`) held separately from the header-keyed
string fields.  (The source keeps both in one dict; the five-column layout
mandates headers `post_number … posted_at`, none of which is `row`, so the
separation is behaviour-preserving.) -/
structure SheetPost where
  row : Nat
  fields : List (String × String)
deriving DecidableEq, Repr

/-- Python dict assignment `d[k] = v` (overwrites an existing key). -/
def dictSet (d : List (String × String)) (k v : String) : List (String × String) :=
  match d with
  | [] => [(k, v)]
  | (k', v') :: rest => if k' = k then (k, v) :: rest else (k', v') :: dictSet rest k v

/-- Python `d.get(k, dflt)`. -/
def dictGet (d : List (String × String)) (k dflt : String) : String :=
  match d with
  | [] => dflt
  | (k', v') :: rest => if k' = k then v' else dictGet rest k dflt

def SheetPost.get (p : SheetPost) (k dflt : String) : String := dictGet p.fields k dflt

/-- `for j, header in enumerate(headers): post[header] = row[j] if j < len(row) else ""`. -/
def rowToPost (headers : List String) (i : Nat) (row : List String) : SheetPost :=
  { row := i
    fields := headers.enum.foldl (fun d hj => dictSet d hj.2 (row.getD hj.1 "")) [] }

/-- `GoogleSheetsManager.get_posts`: header-driven column mapping; data
rows are enumerated with `start=2`, so `post['row']` is the native 1-based
sheet row number (row 1 is the header). -/
def get_posts (values : Sheet) : List SheetPost :=
  match values with
  | [] => []
  | headers :: rows => rows.enum.map fun kr => rowToPost headers (kr.1 + 2) kr.2

def padTo (r : List String) (n : Nat) : List String :=
  r ++ List.replicate (n - r.length) ""

/-- `GoogleSheetsManager.update_posted`: write `timestamp` into the single
cell `E{row}` (column 5 of the given 1-based row), extending the sheet
with empty cells if the row was shorter or beyond the last row. -/
def update_posted (vs : Sheet) (row : Nat) (ts : String) : Sheet :=
  let vs' := vs ++ List.replicate (row - vs.length) []
  vs'.set (row - 1) ((padTo (vs'.getD (row - 1) []) 5).set 4 ts)

/-! ## Store append (`save_post_to_sheet`, lines 53–95) -/

/-- Python `str.isdigit()` on ASCII data: non-empty and all digits. -/
def pyIsdigit (s : String) : Bool := !s.data.isEmpty && s.data.all Char.isDigit

/-- Python `int(s)` for an all-digit string. -/
def pyInt (s : String) : Nat := s.data.foldl (fun a c => 10 * a + digitVal c) 0

/-- The `post_number` computation of `save_post_to_sheet`: when more than
the header row exists, take the *last* row; if its first cell is a digit
string, use its value + 1, otherwise fall back to the row count; with at
most a header row, start at 1. -/
def next_post_number (values : Sheet) : Nat :=
  if 1 < values.length then
    let last_row := values.getLastD []
    if !last_row.isEmpty && pyIsdigit (last_row.headD "") then
      pyInt (last_row.headD "") + 1
    else values.length
  else 1

/-- The same computation including the `except HttpError` path: a failed
read (absent sheet) starts at 1. -/
def next_post_number_or_absent (result : Option Sheet) : Nat :=
  match result with
  | some values => next_post_number values
  | none => 1

/-- Python `str(n)` for a natural number: decimal digits. -/
def natDigits (n : Nat) : List Char :=
  if _h : n < 10 then [Nat.digitChar n]
  else natDigits (n / 10) ++ [Nat.digitChar (n % 10)]
decreasing_by exact Nat.div_lt_self (by omega) (by omega)

def natToString (n : Nat) : String := ⟨natDigits n⟩

/-- The append performed by `save_post_to_sheet`: assign the next post
number, write the row `[str(post_number), final_post, attachments joined
by ", ", scheduled_time, ""]` after the last row (`INSERT_ROWS`), and
return the assigned number. -/
def save_append (values : Sheet) (final_post : String) (media_paths : List String)
    (scheduled_time : String) : Sheet × Nat :=
  let n := next_post_number values
  (values ++ [[natToString n, final_post, String.intercalate ", " media_paths,
               scheduled_time, ""]], n)

/-- The store `append` numbering as the spec words it: "assigns
`post_number` as (max existing numeric first-column value + 1, defaulting
to 1 on empty/absent data)".  Stated from the spec, for comparison with
`next_post_number`, which is translated from the source. -/
def spec_next_post_number (values : Sheet) : Nat :=
  ((values.filterMap fun row =>
    if pyIsdigit (row.headD "") then some (pyInt (row.headD "")) else none).foldl
      max 0) + 1

/-! ## Publish Client (`LinkedInPoster.create_post`) -/

/-- `pathlib.Path(path).suffix`: the extension of the final path
component — `name[i:]` for `i = name.rfind('.')` when `0 < i < len-1`. -/
def pathSuffix (path : String) : String :=
  let cs := ((splitChar '/' path.data).filter (· ≠ [])).getLastD []
  let j := cs.reverse.findIdx (· = '.')
  if j < cs.length then
    let i := cs.length - 1 - j
    if 0 < i && i < cs.length - 1 then ⟨cs.drop i⟩ else ""
  else ""

/-- ASCII lower-casing of one character (`str.lower()` on the ASCII
extension strings compared against the video-extension list). -/
def charLower (c : Char) : Char :=
  if 'A' ≤ c && c ≤ 'Z' then Char.ofNat (c.toNat + 32) else c

def asciiLower (s : String) : String := ⟨s.data.map charLower⟩

def videoExts : List String := [".mp4", ".avi", ".mov"]

/-- Line 106: `media_type = "video" if ext in ['.mp4', '.avi', '.mov']
else "image"` with `ext = Path(path).suffix.lower()`. -/
def mediaTypeOf (path : String) : String :=
  if videoExts.contains (asciiLower (pathSuffix path)) then "video" else "image"

/-- One element of the `media` array: `{"status": "READY", "media": urn}`. -/
structure MediaAsset where
  status : String
  media : String
deriving DecidableEq, Repr

/-- The `ShareContent` part of the `ugcPosts` payload (the `author`,
`lifecycleState` and `visibility` fields are constants in the source and
carry no information). -/
structure ShareContent where
  shareCommentary : String
  shareMediaCategory : String
  media : List MediaAsset
deriving DecidableEq, Repr

/-- Deterministic oracle for the file system and the remote API used by
`create_post`: `os.path.exists`, `register_media` (by the media type it
is called with), `upload_media`, and the final `ugcPosts` request. -/
structure PostEnv where
  fileExists : String → Bool
  registerUpload : String → Except String (String × String)
  uploadBytes : String → String → Except String Unit
  createUgc : ShareContent → Except String String

/-- Lines 99–117, one iteration of the attachment loop: a missing file is
skipped with a warning; any exception from register/upload is caught,
logged and the attachment skipped; success collects a READY asset. -/
def uploadOne (env : PostEnv) (path : String) : Option MediaAsset :=
  if !env.fileExists path then none
  else
    match env.registerUpload (mediaTypeOf path) with
    | .error _ => none
    | .ok (upload_url, asset_urn) =>
        match env.uploadBytes upload_url path with
        | .error _ => none
        | .ok _ => some { status := "READY", media := asset_urn }

/-- The `ShareContent` payload `create_post` ends up sending: text-only
(`"NONE"`) when `media_paths` is empty; otherwise the successfully
uploaded assets under category `"IMAGE"`, or — when zero assets
succeeded — the text-only payload again (the source recurses with
`self.create_post(text, None)`, which lands in the empty branch). -/
def create_post_body (env : PostEnv) (text : String) (media_paths : List String) :
    ShareContent :=
  match media_paths with
  | [] => { shareCommentary := text, shareMediaCategory := "NONE", media := [] }
  | p :: rest =>
      let media_assets := (p :: rest).filterMap (uploadOne env)
      if media_assets.isEmpty then
        { shareCommentary := text, shareMediaCategory := "NONE", media := [] }
      else
        { shareCommentary := text, shareMediaCategory := "IMAGE", media := media_assets }

/-- `LinkedInPoster.create_post`: send the payload, return the provider's
`X-RestLi-Id`; the only uncaught failure is the final request itself. -/
def create_post (env : PostEnv) (text : String) (media_paths : List String) :
    Except String String :=
  env.createUgc (create_post_body env text media_paths)

/-! ## Scheduler tick (`LinkedInScheduler.check_and_post`) -/

inductive LogLevel where
  | debug | info | warning | error | critical
deriving DecidableEq, Repr

/-- Observable events of one tick, in order.  `attempt` marks the call to
`create_post`; `posted` its successful return; `marked` a successful
`update_posted`; `failLog` the `logger.error` of the per-record `except`
branch; `warnNoContent` the `logger.warning` for blank content. -/
inductive Event where
  | warnNoContent (row : Nat)
  | attempt (row : Nat) (content : String) (media : List String)
  | posted (row : Nat) (postId : String)
  | marked (row : Nat) (ts : String)
  | failLog (level : LogLevel) (msg : String)
deriving DecidableEq, Repr

/-- Oracle for one tick: the publish client (abstracting
`LinkedInPoster.create_post`, which depends on the network), the store
write (`update_posted`, which can raise), the wall clock
(`datetime.now(IST).strftime(...)`, sampled once per successful publish
and indexed by the number of prior samples), and the tick's
`current_time = datetime.now(timezone.utc)` as epoch seconds. -/
structure TickEnv where
  publish : String → List String → Except String String
  mark : Nat → String → Except String Unit
  clock : Nat → String
  nowUTC : Int

/-- Line 268: `[p.strip() for p in media.split(',') if p.strip()] if media else []`
with `media = post.get('attachments', '').strip()`. -/
def splitAttachments (s : String) : List String :=
  let media := pyStrip s
  if media = "" then []
  else (((splitChar ',' media.data).map fun cs => pyStrip ⟨cs⟩).filter (· ≠ ""))

/-- One iteration of the per-post loop (lines 249–281), run inside
`try/except`: returns the events it emits, the updated clock-sample
count, and the updated sheet. -/
def stepPost (env : TickEnv) (p : SheetPost) (k : Nat) (sheet : Sheet) :
    List Event × Nat × Sheet :=
  if pyStrip (p.get "posted_at" "") ≠ "" then ([], k, sheet)
  else
    match parse_datetime (p.get "to_be_posted_at" "") with
    | none => ([], k, sheet)
    | some scheduled_time =>
        if env.nowUTC < toEpochSec scheduled_time then ([], k, sheet)
        else
          let content := pyStrip (p.get "post" "")
          if content = "" then ([.warnNoContent p.row], k, sheet)
          else
            let media_paths := splitAttachments (p.get "attachments" "")
            match env.publish content media_paths with
            | .error e =>
                ([.attempt p.row content media_paths,
                  .failLog .error ("Failed to post row " ++ toString p.row ++ ": " ++ e)],
                 k, sheet)
            | .ok postId =>
                let posted_time := env.clock k
                match env.mark p.row posted_time with
                | .ok _ =>
                    ([.attempt p.row content media_paths, .posted p.row postId,
                      .marked p.row posted_time],
                     k + 1, update_posted sheet p.row posted_time)
                | .error e =>
                    ([.attempt p.row content media_paths, .posted p.row postId,
                      .failLog .error ("Failed to post row " ++ toString p.row ++ ": " ++ e)],
                     k + 1, sheet)

/-- The per-post loop over a scanned snapshot. -/
def runPosts (env : TickEnv) : List SheetPost → Nat → Sheet → List Event × Sheet
  | [], _, sheet => ([], sheet)
  | p :: rest, k, sheet =>
      let (evs, k', sheet') := stepPost env p k sheet
      let (evs', sheet'') := runPosts env rest k' sheet'
      (evs ++ evs', sheet'')

/-- One tick of `LinkedInScheduler.check_and_post`, given a successful
scan of `values` (a failed scan aborts the tick before the loop). -/
def check_and_post (env : TickEnv) (values : Sheet) : List Event × Sheet :=
  runPosts env (get_posts values) 0 values

/-- The publish attempts of a trace, in order. -/
def attemptsOf (evs : List Event) : List (Nat × String × List String) :=
  evs.filterMap fun e =>
    match e with
    | .attempt r c m => some (r, c, m)
    | _ => none

/-- The `marked` events of a trace (store writes), in order. -/
def markedOf (evs : List Event) : List (Nat × String) :=
  evs.filterMap fun e =>
    match e with
    | .marked r ts => some (r, ts)
    | _ => none

/-- The condition under which the tick reaches the `create_post` call for
a record: blank `posted_at`, parseable `to_be_posted_at` not after now,
and non-blank content. -/
def attemptPred (now : Int) (p : SheetPost) : Bool :=
  pyStrip (p.get "posted_at" "") = "" &&
  (match parse_datetime (p.get "to_be_posted_at" "") with
   | none => false
   | some s => toEpochSec s ≤ now) &&
  pyStrip (p.get "post" "") ≠ ""

/-- The Due-Post Selector as the spec words it: "the ordered subset where
`posted_at` is empty/blank AND `scheduled_time` normalizes to a value ≤
current instant".  Stated from the spec, for comparison with the per-tick
filtering of `check_and_post`, which is translated from the source. -/
def specDueSelector (now : Int) (posts : List SheetPost) : List SheetPost :=
  posts.filter fun p =>
    pyStrip (p.get "posted_at" "") = "" &&
    (match parse_datetime (p.get "to_be_posted_at" "") with
     | none => false
     | some s => toEpochSec s ≤ now)

/-- The content string the tick publishes for a record (line 261). -/
def contentOf (p : SheetPost) : String := pyStrip (p.get "post" "")

/-- The media path list the tick publishes for a record (lines 267–268). -/
def mediaOf (p : SheetPost) : List String := splitAttachments (p.get "attachments" "")

/-- Whether `pat` occurs as a contiguous substring of `hay`. -/
def strContains (hay pat : String) : Bool :=
  hay.data.tails.any (pat.data.isPrefixOf ·)

/-! ## Concrete snapshots and oracles used by counterexamples and witnesses -/

/-- The five-column header row of the store layout. -/
def stdHeader : List String := ["post_number", "post", "attachments", "to_be_posted_at", "posted_at"]

/-- A snapshot with one pending, due record. -/
def oneDueSheet : Sheet := [stdHeader, ["1", "hello", "", "2025-01-01 09:00", ""]]

/-- A snapshot with one pending, due record whose content is blank. -/
def blankContentSheet : Sheet := [stdHeader, ["1", "   ", "", "2025-01-01 09:00", ""]]

/-- 2025-01-01 09:05 IST as a UTC instant (both sample records are due). -/
def tickNow : Int := toEpochSec ⟨⟨2025, 1, 1, 9, 5, 0⟩, some 330⟩

/-- Oracle where every call succeeds. -/
def okEnv : TickEnv :=
  { publish := fun _ _ => .ok "urn:li:share:42"
    mark := fun _ _ => .ok ()
    clock := fun _ => "2025-01-01 09:05:00"
    nowUTC := tickNow }

/-- Oracle where publish succeeds with a fixed id but the store write fails. -/
def markFailEnv : TickEnv :=
  { publish := fun _ _ => .ok "urn:li:share:42"
    mark := fun _ _ => .error "boom"
    clock := fun _ => "2025-01-01 09:05:00"
    nowUTC := tickNow }

/-- Oracle where publish raises a transient error. -/
def pubFailEnv : TickEnv :=
  { publish := fun _ _ => .error "http 500"
    mark := fun _ _ => .ok ()
    clock := fun _ => "2025-01-01 09:05:00"
    nowUTC := tickNow }

/-- A scanned record that is pending and due at `tickNow`. -/
def duePost : SheetPost :=
  { row := 2
    fields := [("post_number", "1"), ("post", "hello"), ("attachments", ""),
               ("to_be_posted_at", "2025-01-01 09:00"), ("posted_at", "")] }

/-- A scanned record already published (`posted_at` set). -/
def donePost : SheetPost :=
  { row := 2
    fields := [("post_number", "1"), ("post", "hello"), ("attachments", ""),
               ("to_be_posted_at", "2025-01-01 09:00"),
               ("posted_at", "2025-01-01 09:05:00")] }

/-- A scanned record whose schedule string parses under no format. -/
def badTimePost : SheetPost :=
  { row := 3
    fields := [("post_number", "2"), ("post", "x"), ("attachments", ""),
               ("to_be_posted_at", "tomorrow"), ("posted_at", "")] }

/-- Publish-client oracle: only `b.png` and `c.mp4` exist on disk;
register and upload succeed, the final request succeeds. -/
def mediaEnv : PostEnv :=
  { fileExists := fun p => p = "b.png" || p = "c.mp4"
    registerUpload := fun mt => .ok ("url-" ++ mt, "urn-" ++ mt)
    uploadBytes := fun _ _ => .ok ()
    createUgc := fun _ => .ok "id1" }

/-- Publish-client oracle where no attachment file exists. -/
def allFailEnv : PostEnv :=
  { fileExists := fun _ => false
    registerUpload := fun mt => .ok ("url-" ++ mt, "urn-" ++ mt)
    uploadBytes := fun _ _ => .ok ()
    createUgc := fun _ => .ok "id1" }

/-! ## Helper lemmas on lists -/

theorem getD_replicate {α : Type} (k i : Nat) (d : α) :
    (List.replicate k d).getD i d = d := by
  induction k generalizing i with
  | zero => simp [List.getD]
  | succ n ih =>
      cases i with
      | zero => rfl
      | succ j => simp [List.replicate, List.getD, ih j]

theorem getD_append_pad {α : Type} (l : List α) (k i : Nat) (d : α) :
    (l ++ List.replicate k d).getD i d = l.getD i d := by
  induction l generalizing i with
  | nil => simp [getD_replicate k i d]
  | cons a t ih =>
      cases i with
      | zero => rfl
      | succ j => simpa [List.getD] using ih j

theorem getD_set_eq {α : Type} (l : List α) (i : Nat) (a d : α) (h : i < l.length) :
    (l.set i a).getD i d = a := by
  induction l generalizing i with
  | nil => simp at h
  | cons b t ih =>
      cases i with
      | zero => rfl
      | succ j => simpa [List.getD] using ih j (by simpa using h)

theorem getD_set_ne {α : Type} (l : List α) (i j : Nat) (a d : α) (h : i ≠ j) :
    (l.set i a).getD j d = l.getD j d := by
  induction l generalizing i j with
  | nil => simp
  | cons b t ih =>
      cases i with
      | zero =>
          cases j with
          | zero => exact absurd rfl h
          | succ j' => rfl
      | succ i' =>
          cases j with
          | zero => rfl
          | succ j' => simpa [List.getD] using ih i' j' (fun hh => h (by omega))

theorem getLastD_append_single {α : Type} (l : List α) (a d : α) :
    (l ++ [a]).getLastD d = a := by
  induction l with
  | nil => rfl
  | cons b t ih =>
      cases t with
      | nil => rfl
      | cons c u => simp [List.getLastD, ih]

/-! ## Helper lemmas: decimal digits of `str(n)` -/

theorem digitVal_digitChar {d : Nat} (h : d < 10) : digitVal (Nat.digitChar d) = d := by
  interval_cases d <;> decide

theorem isDigit_digitChar {d : Nat} (h : d < 10) : (Nat.digitChar d).isDigit = true := by
  interval_cases d <;> decide

theorem natDigits_ne_nil (n : Nat) : natDigits n ≠ [] := by
  rw [natDigits]
  split <;> simp

theorem natDigits_all_isDigit (n : Nat) : (natDigits n).all Char.isDigit = true := by
  induction n using Nat.strong_induction_on with
  | _ n ih =>
      rw [natDigits]
      split
      · rename_i h
        simp [isDigit_digitChar h]
      · rename_i h
        rw [List.all_append]
        have h1 := ih (n / 10) (Nat.div_lt_self (by omega) (by omega))
        have h2 := isDigit_digitChar (d := n % 10) (Nat.mod_lt _ (by omega))
        simp [h1, h2]

theorem pyInt_natToString (n : Nat) : pyInt (natToString n) = n := by
  induction n using Nat.strong_induction_on with
  | _ n ih =>
      show (natDigits n).foldl (fun a c => 10 * a + digitVal c) 0 = n
      rw [natDigits]
      split
      · rename_i h
        simp [List.foldl, digitVal_digitChar h]
      · rename_i h
        rw [List.foldl_append]
        have h1 : (natDigits (n / 10)).foldl (fun a c => 10 * a + digitVal c) 0 = n / 10 :=
          ih (n / 10) (Nat.div_lt_self (by omega) (by omega))
        simp [List.foldl, h1, digitVal_digitChar (Nat.mod_lt _ (by omega))]
        omega

theorem pyIsdigit_natToString (n : Nat) : pyIsdigit (natToString n) = true := by
  have h1 := natDigits_ne_nil n
  have h2 := natDigits_all_isDigit n
  simp [pyIsdigit, natToString, h2]
  simpa [List.isEmpty_iff] using h1

/-- Appending a row whose first cell is `str(n)` to a non-empty sheet makes
the next assigned post number `n + 1`. -/
theorem next_post_number_append_row (values : Sheet) (hne : values ≠ [])
    (n : Nat) (rest : List String) :
    next_post_number (values ++ [natToString n :: rest]) = n + 1 := by
  unfold next_post_number
  have h1 : 1 < (values ++ [natToString n :: rest]).length := by
    cases values with
    | nil => exact absurd rfl hne
    | cons _ _ => simp [List.length_append]
  rw [if_pos h1, getLastD_append_single]
  simp [pyIsdigit_natToString, pyInt_natToString]

/-! ## C3: append numbering -/

/-- C3 counterexample: on a store whose last data row holds `3` but whose
maximum numeric first-column value is `5`, the code assigns post number
`3 + 1 = 4`, not the claimed maximum-plus-one `6`. -/
theorem C3_counterexample :
    (save_append [["h"], ["5"], ["3"]] "p" [] "2025-01-01 09:00").2 = 4 ∧
    spec_next_post_number [["h"], ["5"], ["3"]] = 6 ∧
    (save_append [["h"], ["5"], ["3"]] "p" [] "2025-01-01 09:00").2 ≠
      spec_next_post_number [["h"], ["5"], ["3"]] := by decide

/-- The numeric branch of the assignment, for an arbitrary store state: if
the last row's first cell is an all-digit string (for example `"05"`), the
assigned number is its integer value plus 1.  (The source also tests
`last_row` for non-emptiness, but `"".isdigit()` is false, so the digit
test alone decides the branch.) -/
theorem next_post_number_digit (values : Sheet) (hlen : 1 < values.length)
    (hdig : pyIsdigit ((values.getLastD []).headD "") = true) :
    next_post_number values = pyInt ((values.getLastD []).headD "") + 1 := by
  show (if 1 < values.length then
          if !(values.getLastD []).isEmpty && pyIsdigit ((values.getLastD []).headD "") then
            pyInt ((values.getLastD []).headD "") + 1
          else values.length
        else 1) = pyInt ((values.getLastD []).headD "") + 1
  rw [if_pos hlen]
  cases hlast : values.getLastD [] with
  | nil =>
      rw [hlast] at hdig
      exact absurd hdig (by decide)
  | cons c cs =>
      rw [hlast] at hdig
      rw [show (!(c :: cs).isEmpty && pyIsdigit ((c :: cs).headD "")) = true by simpa using hdig,
          if_pos rfl]

/-- The fallback branch, for an arbitrary store state: if the last row's
first cell is not an all-digit string (including an empty last row), the
assigned number is the row count, header included. -/
theorem next_post_number_fallback (values : Sheet) (hlen : 1 < values.length)
    (hdig : pyIsdigit ((values.getLastD []).headD "") = false) :
    next_post_number values = values.length := by
  show (if 1 < values.length then
          if !(values.getLastD []).isEmpty && pyIsdigit ((values.getLastD []).headD "") then
            pyInt ((values.getLastD []).headD "") + 1
          else values.length
        else 1) = values.length
  rw [if_pos hlen]
  rw [show (!(values.getLastD []).isEmpty && pyIsdigit ((values.getLastD []).headD ""))
        = false by rw [hdig, Bool.and_false],
      if_neg (by decide)]

/-- C3 (amended): `append` assigns the *last* row's numeric first-column
value plus 1 when that cell is an all-digit string, and the row count
otherwise (not the maximum); a store with at most a header row, or an
absent store, starts at 1; and on any non-empty store two successive
appends assign numbers exactly 1 apart. -/
theorem C3_append_numbering :
    (∀ (values : Sheet) (p s : String) (m : List String),
        values.length ≤ 1 → (save_append values p m s).2 = 1) ∧
    next_post_number_or_absent none = 1 ∧
    (∀ (values : Sheet) (p s : String) (m : List String),
        1 < values.length →
        pyIsdigit ((values.getLastD []).headD "") = true →
        (save_append values p m s).2 = pyInt ((values.getLastD []).headD "") + 1) ∧
    (∀ (values : Sheet) (p s : String) (m : List String),
        1 < values.length →
        pyIsdigit ((values.getLastD []).headD "") = false →
        (save_append values p m s).2 = values.length) ∧
    (∀ (values : Sheet) (p1 p2 s1 s2 : String) (m1 m2 : List String),
        values ≠ [] →
        (save_append (save_append values p1 m1 s1).1 p2 m2 s2).2 =
          (save_append values p1 m1 s1).2 + 1) := by
  refine ⟨?_, rfl, ?_, ?_, ?_⟩
  · intro values p s m h
    simp [save_append, next_post_number, Nat.not_lt.mpr h]
  · intro values p s m hlen hdig
    exact next_post_number_digit values hlen hdig
  · intro values p s m hlen hdig
    exact next_post_number_fallback values hlen hdig
  · intro values p1 p2 s1 s2 m1 m2 hne
    show next_post_number (values ++ [natToString (next_post_number values) :: _]) =
      next_post_number values + 1
    exact next_post_number_append_row values hne _ _

/-- C3 witness: the amended statement at concrete inputs — header-only
store, a non-canonical digit last cell `"05"`, a non-digit last cell, and
two successive appends. -/
theorem C3_witness :
    (save_append [["header"]] "p" [] "t").2 = 1 ∧
    (save_append [["h"], ["05", "x", "", "t", ""]] "p" [] "t").2 = 6 ∧
    (save_append [["h"], ["x"]] "p" [] "t").2 = 2 ∧
    (save_append (save_append [["h"]] "a" [] "t1").1 "b" [] "t2").2 =
      (save_append [["h"]] "a" [] "t1").2 + 1 :=
  ⟨C3_append_numbering.1 [["header"]] "p" "t" [] (by decide),
   (C3_append_numbering.2.2.1 [["h"], ["05", "x", "", "t", ""]] "p" "t" []
       (by decide) (by decide)).trans (by decide),
   (C3_append_numbering.2.2.2.1 [["h"], ["x"]] "p" "t" []
       (by decide) (by decide)).trans (by decide),
   C3_append_numbering.2.2.2.2 [["h"]] "a" "b" "t1" "t2" [] [] (by decide)⟩

/-! ## Helper lemmas: the store adapter -/

/-- The single-cell frame property of `update_posted`: cell `E{row}` gets
the timestamp, every other cell (1-based coordinates) is unchanged. -/
theorem cellAt_update_posted (vs : Sheet) (row : Nat) (ts : String) (r c : Nat)
    (hrow : 1 ≤ row) (hr : 1 ≤ r) (hc : 1 ≤ c) :
    cellAt (update_posted vs row ts) r c =
      if r = row ∧ c = 5 then ts else cellAt vs r c := by
  unfold update_posted cellAt
  by_cases hre : r = row
  · subst hre
    have hlen : r - 1 < (vs ++ List.replicate (r - vs.length) ([] : List String)).length := by
      simp [List.length_append, List.length_replicate]
      omega
    rw [getD_set_eq _ _ _ _ hlen]
    by_cases hc5 : c = 5
    · subst hc5
      rw [if_pos ⟨rfl, rfl⟩]
      refine getD_set_eq _ 4 ts "" ?_
      have h5 : 5 ≤ (padTo ((vs ++ List.replicate (r - vs.length) []).getD (r - 1) []) 5).length := by
        simp [padTo, List.length_append, List.length_replicate]
        omega
      omega
    · rw [if_neg (fun hx => hc5 hx.2)]
      rw [getD_set_ne _ 4 (c - 1) _ _ (by omega)]
      unfold padTo
      rw [getD_append_pad, getD_append_pad]
  · rw [getD_set_ne _ (row - 1) (r - 1) _ _ (by omega), getD_append_pad,
        if_neg (fun hx => hre hx.1)]

theorem enumFrom_map_add_two {α : Type} (l : List α) (s : Nat) :
    ((l.enumFrom s).map fun kr => kr.1 + 2) = List.range' (s + 2) l.length := by
  induction l generalizing s with
  | nil => rfl
  | cons a t ih => simp [List.enumFrom, List.range'_succ, ih, Nat.add_assoc]

/-- The row identifiers captured by `get_posts` are exactly the native
sheet row numbers 2, 3, … of the data rows. -/
theorem get_posts_rows_eq (vs : Sheet) :
    (get_posts vs).map SheetPost.row = List.range' 2 (vs.length - 1) := by
  cases vs with
  | nil => rfl
  | cons hdr rows =>
      show ((rows.enum.map fun kr => rowToPost hdr (kr.1 + 2) kr.2).map SheetPost.row) = _
      rw [List.map_map]
      have hfun : (SheetPost.row ∘ fun kr : Nat × List String => rowToPost hdr (kr.1 + 2) kr.2)
          = fun kr : Nat × List String => kr.1 + 2 := rfl
      rw [hfun]
      simpa using enumFrom_map_add_two rows 0

theorem get_posts_get_row (vs : Sheet) (i : Nat) (hi : i < (get_posts vs).length) :
    ((get_posts vs).get ⟨i, hi⟩).row = i + 2 := by
  cases vs with
  | nil => simp [get_posts] at hi
  | cons hdr rows =>
      simp [get_posts, List.getElem_enum, rowToPost]

/-! ## Helper lemmas: `firstSome` -/

theorem firstSome_eq_none_iff {α β : Type} (f : α → Option β) (l : List α) :
    firstSome f l = none ↔ ∀ a ∈ l, f a = none := by
  induction l with
  | nil => simp [firstSome]
  | cons a t ih =>
      simp only [firstSome]
      cases hfa : f a with
      | some b => simp [hfa]
      | none => simp [hfa, ih]

theorem firstSome_eq_some_of {α β : Type} (f : α → Option β) (l : List α) (i : Nat)
    (h : i < l.length) (b : β)
    (hnone : ∀ a ∈ l.take i, f a = none)
    (hb : f (l.get ⟨i, h⟩) = some b) :
    firstSome f l = some b := by
  induction l generalizing i with
  | nil => simp at h
  | cons a t ih =>
      cases i with
      | zero =>
          have hb' : f a = some b := hb
          simp [firstSome, hb']
      | succ i' =>
          have ha : f a = none := hnone a (by simp)
          simp only [firstSome, ha]
          exact ih i' (by simpa using h) (fun x hx => hnone x (by simp [hx])) hb

/-! ## Helper lemmas: one step of the per-post loop -/

theorem stepPost_skip_posted (env : TickEnv) (p : SheetPost) (k : Nat) (sheet : Sheet)
    (h : pyStrip (p.get "posted_at" "") ≠ "") :
    stepPost env p k sheet = ([], k, sheet) := by
  unfold stepPost
  rw [if_pos h]

theorem stepPost_skip_unparsable (env : TickEnv) (p : SheetPost) (k : Nat) (sheet : Sheet)
    (h0 : pyStrip (p.get "posted_at" "") = "")
    (h1 : parse_datetime (p.get "to_be_posted_at" "") = none) :
    stepPost env p k sheet = ([], k, sheet) := by
  unfold stepPost
  rw [if_neg (fun hc => hc h0)]
  simp only [h1]

theorem stepPost_skip_future (env : TickEnv) (p : SheetPost) (k : Nat) (sheet : Sheet)
    (s : PyDateTime)
    (h0 : pyStrip (p.get "posted_at" "") = "")
    (h1 : parse_datetime (p.get "to_be_posted_at" "") = some s)
    (h2 : env.nowUTC < toEpochSec s) :
    stepPost env p k sheet = ([], k, sheet) := by
  unfold stepPost
  rw [if_neg (fun hc => hc h0)]
  simp only [h1, if_pos h2]

theorem stepPost_blank_content (env : TickEnv) (p : SheetPost) (k : Nat) (sheet : Sheet)
    (s : PyDateTime)
    (h0 : pyStrip (p.get "posted_at" "") = "")
    (h1 : parse_datetime (p.get "to_be_posted_at" "") = some s)
    (h2 : ¬ env.nowUTC < toEpochSec s)
    (h3 : pyStrip (p.get "post" "") = "") :
    stepPost env p k sheet = ([.warnNoContent p.row], k, sheet) := by
  unfold stepPost
  rw [if_neg (fun hc => hc h0)]
  simp only [h1, if_neg h2, if_pos h3]

theorem stepPost_publish_ok_mark_ok (env : TickEnv) (p : SheetPost) (k : Nat) (sheet : Sheet)
    (s : PyDateTime) (pid : String)
    (h0 : pyStrip (p.get "posted_at" "") = "")
    (h1 : parse_datetime (p.get "to_be_posted_at" "") = some s)
    (h2 : ¬ env.nowUTC < toEpochSec s)
    (h3 : pyStrip (p.get "post" "") ≠ "")
    (hpub : env.publish (contentOf p) (mediaOf p) = .ok pid)
    (hmark : env.mark p.row (env.clock k) = .ok ()) :
    stepPost env p k sheet =
      ([.attempt p.row (contentOf p) (mediaOf p), .posted p.row pid,
        .marked p.row (env.clock k)],
       k + 1, update_posted sheet p.row (env.clock k)) := by
  unfold stepPost
  rw [if_neg (fun hc => hc h0)]
  simp only [h1, if_neg h2, if_neg h3]
  rw [show env.publish (pyStrip (p.get "post" ""))
        (splitAttachments (p.get "attachments" "")) = Except.ok pid from hpub]
  rw [show env.mark p.row (env.clock k) = Except.ok () from hmark]
  rfl

theorem stepPost_publish_ok_mark_fail (env : TickEnv) (p : SheetPost) (k : Nat) (sheet : Sheet)
    (s : PyDateTime) (pid e : String)
    (h0 : pyStrip (p.get "posted_at" "") = "")
    (h1 : parse_datetime (p.get "to_be_posted_at" "") = some s)
    (h2 : ¬ env.nowUTC < toEpochSec s)
    (h3 : pyStrip (p.get "post" "") ≠ "")
    (hpub : env.publish (contentOf p) (mediaOf p) = .ok pid)
    (hmark : env.mark p.row (env.clock k) = .error e) :
    stepPost env p k sheet =
      ([.attempt p.row (contentOf p) (mediaOf p), .posted p.row pid,
        .failLog .error ("Failed to post row " ++ toString p.row ++ ": " ++ e)],
       k + 1, sheet) := by
  unfold stepPost
  rw [if_neg (fun hc => hc h0)]
  simp only [h1, if_neg h2, if_neg h3]
  rw [show env.publish (pyStrip (p.get "post" ""))
        (splitAttachments (p.get "attachments" "")) = Except.ok pid from hpub]
  rw [show env.mark p.row (env.clock k) = Except.error e from hmark]
  rfl

theorem stepPost_publish_fail (env : TickEnv) (p : SheetPost) (k : Nat) (sheet : Sheet)
    (s : PyDateTime) (e : String)
    (h0 : pyStrip (p.get "posted_at" "") = "")
    (h1 : parse_datetime (p.get "to_be_posted_at" "") = some s)
    (h2 : ¬ env.nowUTC < toEpochSec s)
    (h3 : pyStrip (p.get "post" "") ≠ "")
    (hpub : env.publish (contentOf p) (mediaOf p) = .error e) :
    stepPost env p k sheet =
      ([.attempt p.row (contentOf p) (mediaOf p),
        .failLog .error ("Failed to post row " ++ toString p.row ++ ": " ++ e)],
       k, sheet) := by
  unfold stepPost
  rw [if_neg (fun hc => hc h0)]
  simp only [h1, if_neg h2, if_neg h3]
  rw [show env.publish (pyStrip (p.get "post" ""))
        (splitAttachments (p.get "attachments" "")) = Except.error e from hpub]
  rfl

theorem runPosts_cons (env : TickEnv) (p : SheetPost) (rest : List SheetPost)
    (k : Nat) (sheet : Sheet) :
    runPosts env (p :: rest) k sheet =
      ((stepPost env p k sheet).1 ++
         (runPosts env rest (stepPost env p k sheet).2.1 (stepPost env p k sheet).2.2).1,
       (runPosts env rest (stepPost env p k sheet).2.1 (stepPost env p k sheet).2.2).2) := by
  rcases hstep : stepPost env p k sheet with ⟨evs, k', sheet'⟩
  simp [runPosts, hstep]

theorem attemptPred_true_iff (now : Int) (p : SheetPost) :
    attemptPred now p = true ↔
      pyStrip (p.get "posted_at" "") = "" ∧
      (∃ s, parse_datetime (p.get "to_be_posted_at" "") = some s ∧ toEpochSec s ≤ now) ∧
      pyStrip (p.get "post" "") ≠ "" := by
  unfold attemptPred
  cases h : parse_datetime (p.get "to_be_posted_at" "") with
  | none => simp [h]
  | some s => simp [h, and_assoc]

/-- The exhaustive shape of one step: a record either fails the selection
predicate and produces no attempt (and no store change), or it passes it
and exactly one of the three publish outcomes happens. -/
theorem stepPost_cases (env : TickEnv) (p : SheetPost) (k : Nat) (sheet : Sheet) :
    (attemptPred env.nowUTC p = false ∧
      (stepPost env p k sheet = ([], k, sheet) ∨
       stepPost env p k sheet = ([.warnNoContent p.row], k, sheet))) ∨
    (attemptPred env.nowUTC p = true ∧
      ((∃ pid, stepPost env p k sheet =
          ([.attempt p.row (contentOf p) (mediaOf p), .posted p.row pid,
            .marked p.row (env.clock k)],
           k + 1, update_posted sheet p.row (env.clock k))) ∨
       (∃ pid e, stepPost env p k sheet =
          ([.attempt p.row (contentOf p) (mediaOf p), .posted p.row pid,
            .failLog .error ("Failed to post row " ++ toString p.row ++ ": " ++ e)],
           k + 1, sheet)) ∨
       (∃ e, stepPost env p k sheet =
          ([.attempt p.row (contentOf p) (mediaOf p),
            .failLog .error ("Failed to post row " ++ toString p.row ++ ": " ++ e)],
           k, sheet)))) := by
  by_cases h0 : pyStrip (p.get "posted_at" "") = ""
  · cases h1 : parse_datetime (p.get "to_be_posted_at" "") with
    | none =>
        refine Or.inl ⟨?_, Or.inl (stepPost_skip_unparsable env p k sheet h0 h1)⟩
        unfold attemptPred
        simp [h1]
    | some s =>
        by_cases h2 : env.nowUTC < toEpochSec s
        · refine Or.inl ⟨?_, Or.inl (stepPost_skip_future env p k sheet s h0 h1 h2)⟩
          unfold attemptPred
          simp [h1]
          omega
        · by_cases h3 : pyStrip (p.get "post" "") = ""
          · refine Or.inl ⟨?_, Or.inr (stepPost_blank_content env p k sheet s h0 h1 h2 h3)⟩
            unfold attemptPred
            simp [h3]
          · refine Or.inr ⟨?_, ?_⟩
            · exact (attemptPred_true_iff env.nowUTC p).mpr
                ⟨h0, ⟨s, h1, by omega⟩, h3⟩
            · cases hpub : env.publish (contentOf p) (mediaOf p) with
              | error e =>
                  exact Or.inr (Or.inr
                    ⟨e, stepPost_publish_fail env p k sheet s e h0 h1 h2 h3 hpub⟩)
              | ok pid =>
                  cases hmark : env.mark p.row (env.clock k) with
                  | ok u =>
                      exact Or.inl ⟨pid,
                        stepPost_publish_ok_mark_ok env p k sheet s pid h0 h1 h2 h3 hpub hmark⟩
                  | error e =>
                      exact Or.inr (Or.inl ⟨pid, e,
                        stepPost_publish_ok_mark_fail env p k sheet s pid e h0 h1 h2 h3 hpub hmark⟩)
  · refine Or.inl ⟨?_, Or.inl (stepPost_skip_posted env p k sheet h0)⟩
    unfold attemptPred
    simp [h0]

/-! ## Helper lemmas: whole-tick inductions -/

theorem attemptsOf_append (l1 l2 : List Event) :
    attemptsOf (l1 ++ l2) = attemptsOf l1 ++ attemptsOf l2 := by
  simp [attemptsOf, List.filterMap_append]

/-- The tick attempts exactly the records passing the code's selection
predicate, in the original scanned order. -/
theorem attempts_runPosts (env : TickEnv) (ps : List SheetPost) (k : Nat) (sheet : Sheet) :
    attemptsOf (runPosts env ps k sheet).1 =
      (ps.filter (attemptPred env.nowUTC)).map (fun p => (p.row, contentOf p, mediaOf p)) := by
  induction ps generalizing k sheet with
  | nil => simp [runPosts, attemptsOf]
  | cons p rest ih =>
      rw [runPosts_cons]
      rcases stepPost_cases env p k sheet with ⟨hpred, hstep | hstep⟩ | ⟨hpred, hcase⟩
      · rw [hstep]
        simpa [attemptsOf_append, attemptsOf, List.filter_cons, hpred] using ih k sheet
      · rw [hstep]
        simpa [attemptsOf_append, attemptsOf, List.filter_cons, hpred] using ih k sheet
      · rcases hcase with ⟨pid, hstep⟩ | ⟨pid, e, hstep⟩ | ⟨e, hstep⟩ <;>
          rw [hstep] <;>
          simpa [attemptsOf_append, attemptsOf, List.filter_cons, hpred] using ih _ _

/-- A cell at a row never selected for publishing is unchanged by the
whole per-post loop. -/
theorem runPosts_cell_frame (env : TickEnv) (ps : List SheetPost) (k : Nat) (sheet : Sheet)
    (r c : Nat) (hr : 1 ≤ r) (hc : 1 ≤ c)
    (h : ∀ p ∈ ps, attemptPred env.nowUTC p = true → 1 ≤ p.row ∧ p.row ≠ r) :
    cellAt (runPosts env ps k sheet).2 r c = cellAt sheet r c := by
  induction ps generalizing k sheet with
  | nil => simp [runPosts]
  | cons p rest ih =>
      rw [runPosts_cons]
      have hrest : ∀ q ∈ rest, attemptPred env.nowUTC q = true → 1 ≤ q.row ∧ q.row ≠ r :=
        fun q hq => h q (List.mem_cons_of_mem p hq)
      rcases stepPost_cases env p k sheet with ⟨hpred, hstep | hstep⟩ | ⟨hpred, hcase⟩
      · rw [hstep]; exact ih k sheet hrest
      · rw [hstep]; exact ih k sheet hrest
      · rcases hcase with ⟨pid, hstep⟩ | ⟨pid, e, hstep⟩ | ⟨e, hstep⟩
        · rw [hstep]
          have hp := h p (List.mem_cons_self p rest) hpred
          refine (ih (k + 1) (update_posted sheet p.row (env.clock k)) hrest).trans ?_
          rw [cellAt_update_posted sheet p.row (env.clock k) r c hp.1 hr hc,
              if_neg (fun hx => hp.2 hx.1.symm)]
        · rw [hstep]; exact ih (k + 1) sheet hrest
        · rw [hstep]; exact ih k sheet hrest

/-- Within one snapshot, the captured row number determines the record. -/
theorem get_posts_row_inj (vs : Sheet) (q p : SheetPost)
    (hq : q ∈ get_posts vs) (hp : p ∈ get_posts vs) (hrow : q.row = p.row) : q = p := by
  obtain ⟨⟨i, hi⟩, hgi⟩ := List.mem_iff_get.mp hq
  obtain ⟨⟨j, hj⟩, hgj⟩ := List.mem_iff_get.mp hp
  have hri : q.row = i + 2 := by rw [← hgi]; exact get_posts_get_row vs i hi
  have hrj : p.row = j + 2 := by rw [← hgj]; exact get_posts_get_row vs j hj
  have hij : i = j := by omega
  subst hij
  rw [← hgi, ← hgj]

/-! ## C2: terminal marker and unparsable schedules -/

/-- C2: a record with non-empty `posted_at` is never selected regardless of
its schedule, and a record with unparsable `scheduled_time` is never
selected; in both cases the step contributes no events and no store change,
and the loop continues with the remaining records (no crash). -/
theorem C2_terminal_marker (env : TickEnv) (p : SheetPost)
    (rest : List SheetPost) (k : Nat) (sheet : Sheet)
    (h : pyStrip (p.get "posted_at" "") ≠ "" ∨
         parse_datetime (p.get "to_be_posted_at" "") = none) :
    runPosts env (p :: rest) k sheet = runPosts env rest k sheet ∧
    attemptPred env.nowUTC p = false := by
  have hstep : stepPost env p k sheet = ([], k, sheet) := by
    rcases h with h | h
    · exact stepPost_skip_posted env p k sheet h
    · by_cases h0 : pyStrip (p.get "posted_at" "") = ""
      · exact stepPost_skip_unparsable env p k sheet h0 h
      · exact stepPost_skip_posted env p k sheet h0
  refine ⟨?_, ?_⟩
  · rw [runPosts_cons, hstep]
    rfl
  · rcases h with h | h
    · unfold attemptPred
      simp [h]
    · unfold attemptPred
      simp [h]

/-- C2 witness: a published record and an unparsable-schedule record are
both skipped without affecting the processing of the rest. -/
theorem C2_witness :
    (runPosts okEnv [donePost] 0 oneDueSheet = runPosts okEnv [] 0 oneDueSheet ∧
      attemptPred okEnv.nowUTC donePost = false) ∧
    (runPosts okEnv [badTimePost] 0 oneDueSheet = runPosts okEnv [] 0 oneDueSheet ∧
      attemptPred okEnv.nowUTC badTimePost = false) :=
  ⟨C2_terminal_marker okEnv donePost [] 0 oneDueSheet (Or.inl (by decide)),
   C2_terminal_marker okEnv badTimePost [] 0 oneDueSheet (Or.inr (by decide))⟩

/-! ## C6: per-record outcomes within a tick -/

/-- C6: for a selected record, on publish success the store write happens
immediately, with the wall-clock sample taken after the publish
(`env.clock k` — not the record's scheduled time), before the next record
is processed; on publish failure the sheet is untouched by that record,
its `posted_at` stays empty, and the remaining records are still
processed (the failure is logged with the record identifier). -/
theorem C6_per_record_outcome (env : TickEnv) (p : SheetPost) (rest : List SheetPost)
    (k : Nat) (sheet : Sheet)
    (hsel : attemptPred env.nowUTC p = true) :
    (∀ pid, env.publish (contentOf p) (mediaOf p) = .ok pid →
        env.mark p.row (env.clock k) = .ok () →
        runPosts env (p :: rest) k sheet =
          (Event.attempt p.row (contentOf p) (mediaOf p) ::
             Event.posted p.row pid ::
             Event.marked p.row (env.clock k) ::
             (runPosts env rest (k + 1) (update_posted sheet p.row (env.clock k))).1,
           (runPosts env rest (k + 1) (update_posted sheet p.row (env.clock k))).2)) ∧
    (∀ e, env.publish (contentOf p) (mediaOf p) = .error e →
        runPosts env (p :: rest) k sheet =
          (Event.attempt p.row (contentOf p) (mediaOf p) ::
             Event.failLog .error ("Failed to post row " ++ toString p.row ++ ": " ++ e) ::
             (runPosts env rest k sheet).1,
           (runPosts env rest k sheet).2)) := by
  obtain ⟨h0, ⟨s, h1, hle⟩, h3⟩ := (attemptPred_true_iff env.nowUTC p).mp hsel
  have h2 : ¬ env.nowUTC < toEpochSec s := by omega
  constructor
  · intro pid hpub hmark
    rw [runPosts_cons, stepPost_publish_ok_mark_ok env p k sheet s pid h0 h1 h2 h3 hpub hmark]
    rfl
  · intro e hpub
    rw [runPosts_cons, stepPost_publish_fail env p k sheet s e h0 h1 h2 h3 hpub]
    rfl

/-- C6 witness: the success path and the transient-failure path at a
concrete due record. -/
theorem C6_witness :
    runPosts okEnv [duePost] 0 oneDueSheet =
      (Event.attempt duePost.row (contentOf duePost) (mediaOf duePost) ::
         Event.posted duePost.row "urn:li:share:42" ::
         Event.marked duePost.row (okEnv.clock 0) ::
         (runPosts okEnv [] (0 + 1) (update_posted oneDueSheet duePost.row (okEnv.clock 0))).1,
       (runPosts okEnv [] (0 + 1) (update_posted oneDueSheet duePost.row (okEnv.clock 0))).2) ∧
    runPosts pubFailEnv [duePost] 0 oneDueSheet =
      (Event.attempt duePost.row (contentOf duePost) (mediaOf duePost) ::
         Event.failLog .error ("Failed to post row " ++ toString duePost.row ++ ": " ++ "http 500") ::
         (runPosts pubFailEnv [] 0 oneDueSheet).1,
       (runPosts pubFailEnv [] 0 oneDueSheet).2) :=
  ⟨(C6_per_record_outcome okEnv duePost [] 0 oneDueSheet (by decide)).1
      "urn:li:share:42" rfl rfl,
   (C6_per_record_outcome pubFailEnv duePost [] 0 oneDueSheet (by decide)).2
      "http 500" rfl⟩

/-! ## C7: store-write failure after a successful publish -/

/-- C7 counterexample: with a due record, a successful publish (provider id
`urn:li:share:42`) and a failing store write, the tick leaves the sheet
unchanged, and the only log entry of the failure is at `error` severity —
not the highest (`critical`) — and its message carries the row identifier
and the exception text but not the provider's post id (the id is discarded
when `create_post` returns). -/
theorem C7_counterexample :
    (check_and_post markFailEnv oneDueSheet).1 =
      [Event.attempt 2 "hello" [], Event.posted 2 "urn:li:share:42",
       Event.failLog .error "Failed to post row 2: boom"] ∧
    (check_and_post markFailEnv oneDueSheet).2 = oneDueSheet ∧
    ((check_and_post markFailEnv oneDueSheet).1.filter fun ev =>
        match ev with
        | .failLog .critical _ => true
        | _ => false) = [] ∧
    strContains "Failed to post row 2: boom" "urn:li:share:42" = false := by decide

/-- C7 (amended): when `mark_posted` fails after a successful publish the
record's row is untouched in the store (still pending: the next tick
re-selects it, which is the duplicate-post risk), the loop continues with
the remaining records, and the failure is logged at `error` severity with
the record identifier and the exception text; the provider's returned post
id is discarded by the tick and never reaches the log. -/
theorem C7_mark_failure_behaviour (env : TickEnv) (p : SheetPost) (rest : List SheetPost)
    (k : Nat) (sheet : Sheet)
    (hsel : attemptPred env.nowUTC p = true) (pid e : String)
    (hpub : env.publish (contentOf p) (mediaOf p) = .ok pid)
    (hmark : env.mark p.row (env.clock k) = .error e) :
    runPosts env (p :: rest) k sheet =
      (Event.attempt p.row (contentOf p) (mediaOf p) ::
         Event.posted p.row pid ::
         Event.failLog .error ("Failed to post row " ++ toString p.row ++ ": " ++ e) ::
         (runPosts env rest (k + 1) sheet).1,
       (runPosts env rest (k + 1) sheet).2) := by
  obtain ⟨h0, ⟨s, h1, hle⟩, h3⟩ := (attemptPred_true_iff env.nowUTC p).mp hsel
  rw [runPosts_cons,
      stepPost_publish_ok_mark_fail env p k sheet s pid e h0 h1 (by omega) h3 hpub hmark]
  rfl

/-- C7 witness: the amended statement at the concrete failing-store oracle. -/
theorem C7_witness :
    runPosts markFailEnv [duePost] 0 oneDueSheet =
      (Event.attempt duePost.row (contentOf duePost) (mediaOf duePost) ::
         Event.posted duePost.row "urn:li:share:42" ::
         Event.failLog .error ("Failed to post row " ++ toString duePost.row ++ ": " ++ "boom") ::
         (runPosts markFailEnv [] (0 + 1) oneDueSheet).1,
       (runPosts markFailEnv [] (0 + 1) oneDueSheet).2) :=
  C7_mark_failure_behaviour markFailEnv duePost [] 0 oneDueSheet (by decide)
    "urn:li:share:42" "boom" rfl rfl

/-! ## C1: the Due-Post Selector against the spec -/

/-- C1 counterexample: a pending record that is due (blank `posted_at`,
`scheduled_time` ≤ now) but has blank content is selected by the spec's
Due-Post Selector, yet the tick never publishes or even attempts it — it
only logs a warning. -/
theorem C1_counterexample :
    (specDueSelector okEnv.nowUTC (get_posts blankContentSheet)).map SheetPost.row = [2] ∧
    (check_and_post okEnv blankContentSheet).1 = [Event.warnNoContent 2] ∧
    attemptsOf (check_and_post okEnv blankContentSheet).1 = [] := by decide

/-- C1 (amended): per tick, the records the code attempts to publish are
exactly those with blank `posted_at`, parseable `scheduled_time` that is ≤
the current instant, AND non-blank content, in the original scanned row
order (stable); equivalently, the code's selection equals the spec's
Due-Post Selector output further filtered to non-blank content. -/
theorem C1_due_selection (env : TickEnv) (values : Sheet) :
    attemptsOf (check_and_post env values).1 =
      ((get_posts values).filter (attemptPred env.nowUTC)).map
        (fun p => (p.row, contentOf p, mediaOf p)) ∧
    (get_posts values).filter (attemptPred env.nowUTC) =
      (specDueSelector env.nowUTC (get_posts values)).filter
        (fun p => pyStrip (p.get "post" "") ≠ "") := by
  constructor
  · exact attempts_runPosts env (get_posts values) 0 values
  · rw [specDueSelector, List.filter_filter]
    apply List.filter_congr
    intro p _
    unfold attemptPred
    cases h : parse_datetime (p.get "to_be_posted_at" "") with
    | none => simp [h]
    | some s => simp [h, Bool.and_comm, Bool.and_left_comm, Bool.and_assoc]

/-! ## C10: blank content stays pending forever -/

/-- C10: a scanned record whose content field is blank is never attempted
by the tick, and its `posted_at` cell (column 5 of its captured row) is
unchanged by the whole tick — the record stays pending indefinitely. -/
theorem C10_blank_content_invariant (env : TickEnv) (values : Sheet) (i : Nat)
    (hi : i < (get_posts values).length)
    (hblank : pyStrip (((get_posts values).get ⟨i, hi⟩).get "post" "") = "") :
    (((get_posts values).get ⟨i, hi⟩).row ∉
        (attemptsOf (check_and_post env values).1).map (fun a => a.1)) ∧
    cellAt (check_and_post env values).2 ((get_posts values).get ⟨i, hi⟩).row 5 =
      cellAt values ((get_posts values).get ⟨i, hi⟩).row 5 := by
  have hpmem : (get_posts values).get ⟨i, hi⟩ ∈ get_posts values := List.get_mem _ _ hi
  have hprow : ((get_posts values).get ⟨i, hi⟩).row = i + 2 := get_posts_get_row values i hi
  have hpredp : attemptPred env.nowUTC ((get_posts values).get ⟨i, hi⟩) = false := by
    unfold attemptPred
    rw [hblank]
    simp
  constructor
  · intro hmem
    rw [check_and_post, attempts_runPosts] at hmem
    simp only [List.map_map, List.mem_map] at hmem
    obtain ⟨q, hqfilter, hqrow⟩ := hmem
    have hqmem : q ∈ get_posts values := List.mem_of_mem_filter hqfilter
    have hqpred : attemptPred env.nowUTC q = true := List.of_mem_filter hqfilter
    have hqp : q = (get_posts values).get ⟨i, hi⟩ :=
      get_posts_row_inj values q _ hqmem hpmem (by simpa using hqrow)
    rw [hqp, hpredp] at hqpred
    cases hqpred
  · rw [check_and_post]
    refine runPosts_cell_frame env (get_posts values) 0 values _ 5
      (by omega) (by omega) ?_
    intro q hqmem hqpred
    obtain ⟨⟨j, hj⟩, hgj⟩ := List.mem_iff_get.mp hqmem
    have hqrow : q.row = j + 2 := by rw [← hgj]; exact get_posts_get_row values j hj
    refine ⟨by omega, ?_⟩
    intro hqr
    have hqp : q = (get_posts values).get ⟨i, hi⟩ :=
      get_posts_row_inj values q _ hqmem hpmem hqr
    rw [hqp, hpredp] at hqpred
    cases hqpred

/-- C10 witness: the blank-content record of the concrete snapshot is never
attempted and its `posted_at` cell is unchanged. -/
theorem C10_witness :
    (((get_posts blankContentSheet).get ⟨0, by decide⟩).row ∉
        (attemptsOf (check_and_post okEnv blankContentSheet).1).map (fun a => a.1)) ∧
    cellAt (check_and_post okEnv blankContentSheet).2
        ((get_posts blankContentSheet).get ⟨0, by decide⟩).row 5 =
      cellAt blankContentSheet ((get_posts blankContentSheet).get ⟨0, by decide⟩).row 5 :=
  C10_blank_content_invariant okEnv blankContentSheet 0 (by decide) (by decide)

/-! ## C8: `mark_posted` frame effect and row identifiers -/

/-- C8: `update_posted` writes the timestamp into cell `E{row}` only —
every other cell of that row and every cell of every other row is
unchanged — and the row identifiers captured at scan time are the store's
native 1-based row numbers (2, 3, …: row 1 is the header). -/
theorem C8_mark_posted_frame :
    (∀ (vs : Sheet) (row : Nat) (ts : String) (r c : Nat),
        1 ≤ row → 1 ≤ r → 1 ≤ c →
        cellAt (update_posted vs row ts) r c =
          if r = row ∧ c = 5 then ts else cellAt vs r c) ∧
    (∀ vs : Sheet, (get_posts vs).map SheetPost.row = List.range' 2 (vs.length - 1)) :=
  ⟨fun vs row ts r c h1 h2 h3 => cellAt_update_posted vs row ts r c h1 h2 h3,
   get_posts_rows_eq⟩

/-- C8 witness: on a concrete two-record sheet, marking row 3 sets exactly
cell E3 and leaves a same-row cell and an other-row cell unchanged. -/
theorem C8_witness :
    cellAt (update_posted [["h"], ["1", "x", "", "t", ""], ["2", "y", "", "t", ""]] 3 "TS") 3 5
      = "TS" ∧
    cellAt (update_posted [["h"], ["1", "x", "", "t", ""], ["2", "y", "", "t", ""]] 3 "TS") 3 2
      = "y" ∧
    cellAt (update_posted [["h"], ["1", "x", "", "t", ""], ["2", "y", "", "t", ""]] 3 "TS") 2 5
      = "" :=
  ⟨(C8_mark_posted_frame.1 [["h"], ["1", "x", "", "t", ""], ["2", "y", "", "t", ""]] 3 "TS" 3 5
      (by decide) (by decide) (by decide)).trans (by decide),
   (C8_mark_posted_frame.1 [["h"], ["1", "x", "", "t", ""], ["2", "y", "", "t", ""]] 3 "TS" 3 2
      (by decide) (by decide) (by decide)).trans (by decide),
   (C8_mark_posted_frame.1 [["h"], ["1", "x", "", "t", ""], ["2", "y", "", "t", ""]] 3 "TS" 2 5
      (by decide) (by decide) (by decide)).trans (by decide)⟩

/-! ## C4: the Datetime Normalizer contract -/

/-- C4: `parse_datetime` is total (the embedding is a function — malformed
input yields `none`, never an exception); it returns `none` exactly on
blank input or when no format in the fixed ordered list matches; on the
first matching format it returns that parse; and every returned value
carries the fixed UTC+5:30 default zone (no source format can produce an
explicit zone, since none contains a zone directive). -/
theorem C4_parse_datetime_contract :
    (∀ s : String, parse_datetime s = none ↔
        (pyStrip s = "" ∨ ∀ fmt ∈ formats, strptime fmt (pyStrip s).data = none)) ∧
    (∀ (s : String) (i : Nat) (h : i < formats.length) (dt : NaiveDT),
        (∀ fmt ∈ formats.take i, strptime fmt (pyStrip s).data = none) →
        strptime (formats.get ⟨i, h⟩) (pyStrip s).data = some dt →
        pyStrip s ≠ "" →
        parse_datetime s = some (attachIST dt)) ∧
    (∀ (s : String) (p : PyDateTime), parse_datetime s = some p →
        p.tzOffsetMinutes = some IST) := by
  refine ⟨?_, ?_, ?_⟩
  · intro s
    unfold parse_datetime
    by_cases hs : pyStrip s = ""
    · simp [hs]
    · rw [if_neg hs]
      cases hfs : firstSome (fun fmt => strptime fmt (pyStrip s).data) formats with
      | some dt =>
          have hnotall : ¬ (∀ fmt ∈ formats, strptime fmt (pyStrip s).data = none) := by
            intro hall
            rw [← firstSome_eq_none_iff] at hall
            rw [hall] at hfs
            cases hfs
          simp [hs, hnotall]
      | none =>
          exact iff_of_true rfl (Or.inr ((firstSome_eq_none_iff _ _).mp hfs))
  · intro s i h dt hnone hi hs
    unfold parse_datetime
    rw [if_neg hs, firstSome_eq_some_of _ formats i h dt hnone hi]
  · intro s p hp
    unfold parse_datetime at hp
    by_cases hs : pyStrip s = ""
    · rw [if_pos hs] at hp
      cases hp
    · rw [if_neg hs] at hp
      cases hfs : firstSome (fun fmt => strptime fmt (pyStrip s).data) formats with
      | none => rw [hfs] at hp; cases hp
      | some dt => rw [hfs] at hp; cases hp; rfl

/-- C4 witness: `"01/02/2025 10:30"` is rejected by the two `%Y-%m-%d`
formats and by `%m/%d/%Y %H:%M:%S`, and parsed by the fourth format
`%m/%d/%Y %H:%M` as January 2nd with the IST zone attached. -/
theorem C4_witness :
    parse_datetime "01/02/2025 10:30" = some (attachIST ⟨2025, 1, 2, 10, 30, 0⟩) :=
  C4_parse_datetime_contract.2.1 "01/02/2025 10:30" 3 (by decide) ⟨2025, 1, 2, 10, 30, 0⟩
    (by decide) (by decide) (by decide)

/-! ## Helper lemmas: the Publish Client payload -/

theorem create_post_body_all_fail (env : PostEnv) (text : String) (paths : List String)
    (h : paths.filterMap (uploadOne env) = []) :
    create_post_body env text paths = create_post_body env text [] := by
  cases paths with
  | nil => rfl
  | cons p rest => simp [create_post_body, h]

theorem create_post_body_media (env : PostEnv) (text : String) (p : String)
    (rest : List String) (h : (p :: rest).filterMap (uploadOne env) ≠ []) :
    (create_post_body env text (p :: rest)).media = (p :: rest).filterMap (uploadOne env) ∧
    (create_post_body env text (p :: rest)).shareCommentary = text ∧
    (create_post_body env text (p :: rest)).shareMediaCategory = "IMAGE" := by
  have hne : ((p :: rest).filterMap (uploadOne env)).isEmpty = false := by
    simpa [List.isEmpty_iff] using h
  simp [create_post_body, hne]

/-! ## C5: per-attachment failure tolerance -/

/-- C5: an attachment whose file is missing or whose upload fails is
simply absent from the collected assets (the post is not aborted: the
payload's media list is exactly the successful uploads, in order); when
zero assets succeed the call degrades to exactly the text-only publish of
the empty-attachments path; and a two-attachment call with one missing
file publishes with only the remaining valid asset. -/
theorem C5_attachment_failures (env : PostEnv) (text : String) (paths : List String) :
    ((∀ p ∈ paths, uploadOne env p = none) →
        create_post env text paths = create_post env text []) ∧
    (paths.filterMap (uploadOne env) ≠ [] →
        (create_post_body env text paths).media = paths.filterMap (uploadOne env)) ∧
    (∀ p1 p2 a, env.fileExists p1 = false → uploadOne env p2 = some a →
        (create_post_body env text [p1, p2]).media = [a]) := by
  refine ⟨?_, ?_, ?_⟩
  · intro hall
    unfold create_post
    rw [create_post_body_all_fail env text paths (List.filterMap_eq_nil_iff.mpr hall)]
  · intro h
    cases paths with
    | nil => exact absurd rfl h
    | cons p rest => exact (create_post_body_media env text p rest h).1
  · intro p1 p2 a h1 h2
    have hu1 : uploadOne env p1 = none := by simp [uploadOne, h1]
    have hfm : [p1, p2].filterMap (uploadOne env) = [a] := by
      simp [hu1, h2]
    rw [(create_post_body_media env text p1 [p2] (by rw [hfm]; simp)).1, hfm]

/-- C5 witness: all-fail degradation and the two-attachment scenario with
one missing file, at concrete oracles. -/
theorem C5_witness :
    create_post allFailEnv "txt" ["missing.jpg", "gone.png"] =
      create_post allFailEnv "txt" [] ∧
    (create_post_body mediaEnv "txt" ["missing.jpg", "b.png"]).media =
      ["missing.jpg", "b.png"].filterMap (uploadOne mediaEnv) ∧
    (create_post_body mediaEnv "txt" ["missing.jpg", "b.png"]).media =
      [{ status := "READY", media := "urn-image" }] :=
  ⟨(C5_attachment_failures allFailEnv "txt" ["missing.jpg", "gone.png"]).1 (by decide),
   (C5_attachment_failures mediaEnv "txt" ["missing.jpg", "b.png"]).2.1 (by decide),
   (C5_attachment_failures mediaEnv "txt" ["missing.jpg", "b.png"]).2.2 "missing.jpg" "b.png"
     { status := "READY", media := "urn-image" } (by decide) (by decide)⟩

/-! ## C9: the media category is always IMAGE -/

/-- C9: whenever the attachment list is non-empty and at least one asset
uploaded successfully, the payload's `shareMediaCategory` is the fixed
string `"IMAGE"` — even though an attachment with a `.mp4`/`.avi`/`.mov`
extension is registered with the `"video"` media kind. -/
theorem C9_category_always_image (env : PostEnv) (text : String) (p : String)
    (rest : List String) (h : (p :: rest).filterMap (uploadOne env) ≠ []) :
    (create_post_body env text (p :: rest)).shareMediaCategory = "IMAGE" ∧
    (∀ q : String, videoExts.contains (asciiLower (pathSuffix q)) = true →
        mediaTypeOf q = "video") := by
  refine ⟨(create_post_body_media env text p rest h).2.2, ?_⟩
  intro q hq
  unfold mediaTypeOf
  rw [hq]
  rfl

/-- C9 witness: a single `.mp4` attachment is registered as video, yet the
posted payload's category is IMAGE. -/
theorem C9_witness :
    (create_post_body mediaEnv "txt" ["c.mp4"]).shareMediaCategory = "IMAGE" ∧
    mediaTypeOf "c.mp4" = "video" :=
  ⟨(C9_category_always_image mediaEnv "txt" "c.mp4" [] (by decide)).1,
   (C9_category_always_image mediaEnv "txt" "c.mp4" [] (by decide)).2 "c.mp4" (by decide)⟩

/-! ## Sanity examples for the datetime model -/

example : strptime ⟨.ymd, true⟩ "2025-01-01 09:00:00".data =
    some ⟨2025, 1, 1, 9, 0, 0⟩ := by decide

example : parse_datetime "2025-01-01 09:00" =
    some ⟨⟨2025, 1, 1, 9, 0, 0⟩, some 330⟩ := by decide

example : parse_datetime "not a date" = none := by decide

example : parse_datetime "19/05/2025 10:00" =
    some ⟨⟨2025, 5, 19, 10, 0, 0⟩, some 330⟩ := by decide

example : parse_datetime "2025-02-30 10:00" = none := by decide

example : parse_datetime "  " = none := by decide

example : parse_datetime "2025-01-01 09:00:61" = none := by decide

end AutoPoster
